import Mathlib

/-
Verification of the SBTi pathway-extraction pipeline of blipee-os.

The repository contains two near-duplicate extraction scripts:
  * src/blipee-v2/apps/blipee-v2/scripts/extract-sbti-pathways-v2.py  ("v2")
  * src/blipee-v2/apps/blipee-v2/scripts/extract-sbti-pathways.py     ("v1")
Both read the "Database" sheet of an Excel workbook, discover year columns
from the header row, normalize categorical fields through lookup tables and
emit SQL INSERT statements.  This file is a shallow embedding of both
scripts: spreadsheet cells become an inductive `Cell` type mirroring the
Python values the scripts actually inspect (None, int/float, str, bool);
the imperative row loops become per-row pure functions whose results are
concatenated; the generated SQL statements become an explicit statement
datatype with their database semantics (plain INSERT versus
INSERT ... ON CONFLICT DO NOTHING) modelled as functions on a record store.
-/

namespace SBTi

/-- A spreadsheet cell value as the scripts see it through openpyxl:
`None` for an empty cell, an int/float (modelled as one rational field,
since the scripts never distinguish int from float), a string, or a bool
(openpyxl can deliver bools, and Python's `bool` is a subclass of `int`,
which matters for the emitters' `isinstance(value, (int, float))` test). -/
inductive Cell where
  | none : Cell
  | num : ℚ → Cell
  | str : String → Cell
  | bool : Bool → Cell
deriving DecidableEq, Repr

/-- Python truthiness of a cell value: `None` is falsy, a number is truthy
iff nonzero, a string is truthy iff nonempty, a bool is itself. -/
def truthy : Cell → Bool
  | Cell.none => false
  | Cell.num q => decide (q ≠ 0)
  | Cell.str s => decide (s ≠ "")
  | Cell.bool b => b

/-- Cell access by 1-based column index (openpyxl's `ws.cell(row, col)`),
returning `None` for a column beyond the stored row. -/
def cellAt (row : List Cell) (i : Nat) : Cell :=
  row.getD (i - 1) Cell.none

/-- Cell access by 0-based index (Python list indexing on `list(ws[row_idx])`),
returning `None` out of range; the scripts guard out-of-range access with
`if len(row) > k`, which this default reproduces for metadata reads. -/
def cellAt0 (row : List Cell) (i : Nat) : Cell :=
  row.getD i Cell.none

/-- `dict.get` of the category mappings applied to a raw cell: the mapping
keys are strings, so only a string cell can hit; any other cell misses.
The source dicts have pairwise distinct keys, so an association list with
first-match lookup has the same semantics. -/
def mapGet (m : List (String × String)) (c : Cell) : Option String :=
  match c with
  | Cell.str s => List.lookup s m
  | _ => Option.none

/-- The values of a mapping, as in Python's `dict.values()`. -/
def mapValues (m : List (String × String)) : List String :=
  m.map Prod.snd

/-- Decimal digit value of a character, by its code point. -/
def digitVal (c : Char) : Option Nat :=
  let n := c.toNat
  if 48 ≤ n ∧ n ≤ 57 then some (n - 48) else Option.none

/-- Value of a nonempty all-digit character list; `none` if empty or if any
character is not a digit. -/
def digitsVal : List Char → Option Nat
  | [] => Option.none
  | cs => cs.foldl (fun acc c => match acc, digitVal c with
      | some a, some d => some (a * 10 + d)
      | _, _ => Option.none) (some 0)

/-- Whitespace characters stripped by Python's `int(str)` (ASCII subset). -/
def isSpaceChar (c : Char) : Bool := c = ' ' ∨ c = '\t' ∨ c = '\n' ∨ c = '\r'

/-- Python's `int(s)` on a string: surrounding whitespace is ignored, an
optional single sign precedes a nonempty digit run; anything else (including
`"2020.5"` and `""`) raises `ValueError`, modelled as `none`. -/
def pyInt (s : String) : Option Int :=
  let cs := ((s.data.dropWhile isSpaceChar).reverse.dropWhile isSpaceChar).reverse
  match cs with
  | [] => Option.none
  | c :: rest =>
    if c = '-' then (digitsVal rest).map (fun n => -(n : Int))
    else if c = '+' then (digitsVal rest).map (fun n => (n : Int))
    else (digitsVal cs).map (fun n => (n : Int))

/-- Year resolution of one header cell in the v2 script (lines 49-56):
`if header and isinstance(header, str)` admits only truthy (nonempty)
strings, then `int(header)` must succeed and lie in `[2014, 2050]`.
A numeric header cell is never resolved by v2. -/
def resolveYearV2 (c : Cell) : Option Int :=
  match c with
  | Cell.str s =>
    if s ≠ "" then
      match pyInt s with
      | some y => if 2014 ≤ y ∧ y ≤ 2050 then some y else Option.none
      | Option.none => Option.none
    else Option.none
  | _ => Option.none

/-- The v2 Scanner (lines 47-56): walk 1-based columns `9 .. max_column` of
the header row and keep `(columnIndex, year)` for every cell that resolves. -/
def yearColumnsV2 (header : List Cell) (maxCol : Nat) : List (Nat × Int) :=
  (List.range' 9 (maxCol + 1 - 9)).filterMap fun i =>
    (resolveYearV2 (cellAt header i)).map fun y => (i, y)

/-- Year resolution of one header cell in the v1 script (lines 34-36):
`isinstance(header, (int, float)) and 2014 <= header <= 2050`, then
`int(header)`.  A bool passes the isinstance test (bool is a subclass of
int) but its value 0/1 never lies in range, so bools resolve to nothing
either way; truncation `int(q)` equals `⌊q⌋` on the positive range.
A string header cell is never resolved by v1. -/
def resolveYearV1 (c : Cell) : Option Int :=
  match c with
  | Cell.num q => if 2014 ≤ q ∧ q ≤ 2050 then some ⌊q⌋ else Option.none
  | _ => Option.none

/-- The v1 Scanner (lines 33-36): enumerate the header cells from 0-based
index 0 and keep `(index, year)` for every numeric cell in range. -/
def yearColumnsV1 (header : List Cell) : List (Nat × Int) :=
  header.enum.filterMap fun p =>
    (resolveYearV1 p.2).map fun y => (p.1, y)

/-- Sheet-wide maximum column count, as openpyxl's `ws.max_column`
(the bounding-box width over the header and all data rows). -/
def maxColumn (header : List Cell) (rows : List (List Cell)) : Nat :=
  rows.foldl (fun m r => max m r.length) header.length

/-- Pad a stored row with empty cells up to the sheet width, as openpyxl
does when a whole row is materialised via `ws[row_idx]`. -/
def padRow (row : List Cell) (n : Nat) : List Cell :=
  row ++ List.replicate (n - row.length) Cell.none

/-- One output record of either pipeline.  `scenario` and `sector` are the
canonical strings produced by the lookups; `region`, `metricType` and
`unit` stay cells because the scripts interpolate the raw Python values
into the SQL text; `value` stays a cell, recording exactly which Python
object passed the numeric test (a rational or, via the bool-is-int
subtlety, `True`). -/
structure NormalizedRecord where
  scenario : String
  sector : String
  region : Cell
  metricType : Cell
  unit : Cell
  year : Int
  value : Cell
  dataSource : String
deriving DecidableEq, Repr

/-- The conflict key named by the v2 statement's
`ON CONFLICT (scenario, sector, region, metric_type, unit, year)` clause. -/
def conflictKey (r : NormalizedRecord) : String × String × Cell × Cell × Cell × Int :=
  (r.scenario, r.sector, r.region, r.metricType, r.unit, r.year)

/-- The emitters' cell test, identical in both scripts (v2 line 99, v1
line 90): `value is not None and isinstance(value, (int, float)) and
value != 0`.  A bool is an instance of int in Python, `True != 0` holds and
`False != 0` fails; a string is never an int/float; `None` fails first. -/
def pyNumericNonzero : Cell → Bool
  | Cell.num q => decide (q ≠ 0)
  | Cell.bool b => b
  | _ => false

/-- Metric-type classification of the v2 script (lines 78-83): exact label
"Emissions" stays "Emissions", labels in the synonym list
`['Electricity', 'Activity']` become "Activity", every other value (None,
numbers, unknown strings) passes through unchanged. -/
def metricTypeV2 (c : Cell) : Cell :=
  if c = Cell.str "Emissions" then Cell.str "Emissions"
  else if c = Cell.str "Electricity" ∨ c = Cell.str "Activity" then Cell.str "Activity"
  else c

/-- Metric-type classification of the v1 script (line 79):
`'Emissions' if metric_type_raw == 'Emissions' else 'Activity'` — every
value other than the exact string "Emissions" is coerced to "Activity". -/
def metricTypeV1 (c : Cell) : String :=
  if c = Cell.str "Emissions" then "Emissions" else "Activity"

/-- Region extraction of the v2 script (line 68):
`ws.cell(row_idx, 4).value or 'World'` — Python `or` yields the fallback
whenever the cell value is falsy (None or an empty string). -/
def regionV2 (c : Cell) : Cell :=
  if truthy c then c else Cell.str "World"

/-- Scenario value computed by the v1 script (line 75):
`scenario_map.get(scenario_raw, scenario_raw)` — the raw cell itself is the
default on a mapping miss. -/
def scenarioGetV1 (smap : List (String × String)) (c : Cell) : Cell :=
  match c with
  | Cell.str s =>
    match List.lookup s smap with
    | some v => Cell.str v
    | Option.none => c
  | _ => c

/-- Outcome of the v2 per-row loop body (lines 65-111): an unrecognized
sector/scenario increments `skipped_rows` and skips the row; a mapped row
whose metric type is not "Emissions" is silently dropped (no counter); an
accepted row walks the year columns and emits records. -/
inductive RowResultV2 where
  | unmapped : RowResultV2
  | metricFiltered : RowResultV2
  | emitted : List NormalizedRecord → RowResultV2
deriving DecidableEq, Repr

/-- Records contributed by a v2 row outcome. -/
def recordsOfV2 : RowResultV2 → List NormalizedRecord
  | RowResultV2.emitted rs => rs
  | _ => []

/-- The v2 per-row loop body.  Metadata reads are 1-based cells: scenario
col 2, region col 4, flow col 5, unit col 6, sector col 8.  The guard
`if not sector or not scenario` (line 86) fires on a lookup miss or an
empty-string mapping value; it is checked before the metric filter
(line 91), matching the source order. -/
def processRowV2 (smap secmap : List (String × String)) (yc : List (Nat × Int))
    (row : List Cell) : RowResultV2 :=
  let region := regionV2 (cellAt row 4)
  let metricType := metricTypeV2 (cellAt row 5)
  let unit := cellAt row 6
  match mapGet smap (cellAt row 2), mapGet secmap (cellAt row 8) with
  | some scenario, some sector =>
    if scenario = "" ∨ sector = "" then RowResultV2.unmapped
    else if metricType ≠ Cell.str "Emissions" then RowResultV2.metricFiltered
    else RowResultV2.emitted (yc.filterMap fun p =>
      let v := cellAt row p.1
      if pyNumericNonzero v then
        some ⟨scenario, sector, region, metricType, unit, p.2, v, "IEA SBTi Tool v2.4"⟩
      else Option.none)
  | _, _ => RowResultV2.unmapped

/-- Records of one v2 row. -/
def rowRecordsV2 (smap secmap : List (String × String)) (yc : List (Nat × Int))
    (row : List Cell) : List NormalizedRecord :=
  recordsOfV2 (processRowV2 smap secmap yc row)

/-- All records emitted by the v2 pipeline over the data rows, in order
(the loop appends row by row, column by column). -/
def extractRecordsV2 (smap secmap : List (String × String)) (header : List Cell)
    (rows : List (List Cell)) : List NormalizedRecord :=
  rows.flatMap (rowRecordsV2 smap secmap (yearColumnsV2 header (maxColumn header rows)))

/-- The v2 `skipped_rows` counter: incremented exactly once per row that
takes the unrecognized-sector/scenario branch (lines 86-88). -/
def skippedRowsV2 (smap secmap : List (String × String)) (header : List Cell)
    (rows : List (List Cell)) : Nat :=
  rows.countP fun row =>
    decide (processRowV2 smap secmap (yearColumnsV2 header (maxColumn header rows)) row
      = RowResultV2.unmapped)

/-- The v2 `processed_rows` counter: incremented for a row iff it reached
emission and `values_found > 0` (lines 110-111). -/
def processedRowsV2 (smap secmap : List (String × String)) (header : List Cell)
    (rows : List (List Cell)) : Nat :=
  rows.countP fun row =>
    !(rowRecordsV2 smap secmap (yearColumnsV2 header (maxColumn header rows)) row).isEmpty

/-- Outcome of the v1 per-row loop body (lines 63-94): a failed
sector/scenario check just `continue`s (v1 keeps no skip counter);
otherwise records are emitted (v1 has no metric-type filter). -/
inductive RowResultV1 where
  | skipped : RowResultV1
  | emitted : List NormalizedRecord → RowResultV1
deriving DecidableEq, Repr

/-- Records contributed by a v1 row outcome. -/
def recordsOfV1 : RowResultV1 → List NormalizedRecord
  | RowResultV1.emitted rs => rs
  | _ => []

/-- The v1 per-row loop body.  Metadata reads are 0-based list indices on
the padded row: scenario 1, region 3, flow 4, unit 5, sector 7, each
guarded by `if len(row) > k else default`; only region's default is
`'World'`, the others default to None.  The acceptance check (line 82) is
`if not sector or not scenario or scenario not in scenario_map.values()`:
a non-string scenario value can never be in the string value list, an
empty string is falsy, so acceptance requires a string scenario that is a
mapping value — which the raw label itself can satisfy via the
`get(scenario_raw, scenario_raw)` default. -/
def processRowV1 (smap secmap : List (String × String)) (yc : List (Nat × Int))
    (row : List Cell) : RowResultV1 :=
  let region := if 3 < row.length then cellAt0 row 3 else Cell.str "World"
  let metricType := metricTypeV1 (cellAt0 row 4)
  let unit := cellAt0 row 5
  match mapGet secmap (cellAt0 row 7), scenarioGetV1 smap (cellAt0 row 1) with
  | some sector, Cell.str scenario =>
    if sector = "" ∨ scenario = "" ∨ ¬ (mapValues smap).contains scenario then
      RowResultV1.skipped
    else RowResultV1.emitted (yc.filterMap fun p =>
      if p.1 < row.length then
        let v := cellAt0 row p.1
        if pyNumericNonzero v then
          some ⟨scenario, sector, region, Cell.str metricType, unit, p.2, v, "IEA Database Sheet"⟩
        else Option.none
      else Option.none)
  | _, _ => RowResultV1.skipped

/-- Records of one v1 row. -/
def rowRecordsV1 (smap secmap : List (String × String)) (yc : List (Nat × Int))
    (row : List Cell) : List NormalizedRecord :=
  recordsOfV1 (processRowV1 smap secmap yc row)

/-- All records emitted by the v1 pipeline: the header and each data row
are materialised padded to the sheet width (`ws[1]`, `list(ws[row_idx])`). -/
def extractRecordsV1 (smap secmap : List (String × String)) (header : List Cell)
    (rows : List (List Cell)) : List NormalizedRecord :=
  let mc := maxColumn header rows
  rows.flatMap fun row =>
    rowRecordsV1 smap secmap (yearColumnsV1 (padRow header mc)) (padRow row mc)

/-- A generated SQL statement, by its effect: the v2 script emits
`INSERT ... ON CONFLICT (scenario, sector, region, metric_type, unit, year)
DO NOTHING` (lines 102-106); the v1 script emits a bare `INSERT` with no
conflict clause (line 92). -/
inductive Stmt where
  | insertDoNothing : NormalizedRecord → Stmt
  | insertPlain : NormalizedRecord → Stmt
deriving DecidableEq, Repr

/-- Database semantics of one statement against a store of persisted
records: `insertDoNothing` is a no-op when some stored record already has
the same conflict key, otherwise it appends; `insertPlain` always appends. -/
def applyStmt (store : List NormalizedRecord) : Stmt → List NormalizedRecord
  | Stmt.insertDoNothing r =>
    if store.any fun x => decide (conflictKey x = conflictKey r) then store
    else store ++ [r]
  | Stmt.insertPlain r => store ++ [r]

/-- Apply a statement sequence left to right. -/
def applyStmts (stmts : List Stmt) (store : List NormalizedRecord) : List NormalizedRecord :=
  stmts.foldl applyStmt store

/-- The statement sequence serialized by the v2 script: one conflict-keyed
do-nothing insert per emitted record, in emission order. -/
def extractStmtsV2 (smap secmap : List (String × String)) (header : List Cell)
    (rows : List (List Cell)) : List Stmt :=
  (extractRecordsV2 smap secmap header rows).map Stmt.insertDoNothing

/-- The statement sequence serialized by the v1 script: one plain insert
per emitted record. -/
def extractStmtsV1 (smap secmap : List (String × String)) (header : List Cell)
    (rows : List (List Cell)) : List Stmt :=
  (extractRecordsV1 smap secmap header rows).map Stmt.insertPlain

/-- Control-flow outcome of a full v2 run.  After generating and writing
the statements, the final summary (line 156) evaluates
`year_columns[0][1]` and `year_columns[-1][1]`; on an empty
`year_columns` both subscripts raise `IndexError`, modelled here by
`head?`/`getLast?` being `none`. -/
def extractRunV2 (smap secmap : List (String × String)) (header : List Cell)
    (rows : List (List Cell)) : Except String (List Stmt × Nat × Nat) :=
  let yc := yearColumnsV2 header (maxColumn header rows)
  match yc.head?, yc.getLast? with
  | some _, some _ =>
    Except.ok (extractStmtsV2 smap secmap header rows,
      processedRowsV2 smap secmap header rows, skippedRowsV2 smap secmap header rows)
  | _, _ => Except.error "IndexError: list index out of range"

/-- The v2 script's sector mapping literal (lines 24-37). -/
def sector_map_v2 : List (String × String) :=
  [("Iron and steel", "iron_steel"), ("Cement", "cement"), ("Aluminium", "aluminum"),
   ("Aluminum", "aluminum"), ("Pulp and paper", "pulp_paper"),
   ("Other industry", "cross_sector"), ("Services - Buildings", "buildings"),
   ("Residential Buildings", "buildings"), ("Power", "power_generation"),
   ("Power generation", "power_generation"), ("Transport", "transport"),
   ("Primary energy demand and industry", "cross_sector")]

/-- The v2 script's scenario mapping literal (lines 40-44). -/
def scenario_map_v2 : List (String × String) :=
  [("ETP B2DS", "ETP_B2DS"), ("SBTi 1.5C", "SBTi_1.5C"), ("NZE2021", "NZE2021")]

/-- The v1 script's sector mapping literal (lines 41-50). -/
def sector_map_v1 : List (String × String) :=
  [("Iron and steel", "iron_steel"), ("Cement", "cement"), ("Aluminium", "aluminum"),
   ("Pulp and paper", "pulp_paper"), ("Other industry", "cross_sector"),
   ("Services - Buildings", "buildings"), ("Power", "power_generation"),
   ("Power generation", "power_generation")]

/-- The v1 script's scenario mapping literal (lines 53-57). -/
def scenario_map_v1 : List (String × String) :=
  [("ETP B2DS", "ETP_B2DS"), ("SBTi 1.5C", "SBTi_1.5C"), ("NZE2021", "NZE2021")]

/-- Association-list lookup misses exactly the strings that are not keys. -/
theorem lookup_eq_none_iff {m : List (String × String)} {s : String} :
    List.lookup s m = Option.none ↔ s ∉ m.map Prod.fst := by
  induction m with
  | nil => simp [List.lookup]
  | cons kv m ih =>
    rcases kv with ⟨k, v⟩
    by_cases h : s = k
    · subst h
      simp [List.lookup]
    · have hbeq : (s == k) = false := beq_false_of_ne h
      simp [List.lookup, hbeq, ih, h]

/-- A successful lookup returns one of the mapping's values. -/
theorem lookup_some_mem_values {m : List (String × String)} {s v : String}
    (h : List.lookup s m = some v) : v ∈ m.map Prod.snd := by
  induction m with
  | nil => simp [List.lookup] at h
  | cons kv m ih =>
    rcases kv with ⟨k, w⟩
    by_cases hk : s = k
    · subst hk
      simp [List.lookup] at h
      simp [h]
    · have hbeq : (s == k) = false := beq_false_of_ne hk
      simp [List.lookup, hbeq] at h
      simp [ih h]

/-- A raw cell misses a category mapping exactly when it is not a string
that is one of the mapping's keys. -/
theorem mapGet_eq_none_iff {m : List (String × String)} {c : Cell} :
    mapGet m c = Option.none ↔ ¬ ∃ s, c = Cell.str s ∧ s ∈ m.map Prod.fst := by
  cases c with
  | str s =>
    have hdef : mapGet m (Cell.str s) = List.lookup s m := rfl
    rw [hdef, lookup_eq_none_iff]
    constructor
    · intro h hex
      obtain ⟨t, ht, hmem⟩ := hex
      have : s = t := by injection ht
      exact h (this ▸ hmem)
    · intro h hmem
      exact h ⟨s, rfl, hmem⟩
  | none => simp [mapGet]
  | num q => simp [mapGet]
  | bool b => simp [mapGet]

/-- A successful category-mapping hit yields one of the mapping's values. -/
theorem mapGet_some_mem_values {m : List (String × String)} {c : Cell} {v : String}
    (h : mapGet m c = some v) : v ∈ m.map Prod.snd := by
  cases c with
  | str s => exact lookup_some_mem_values h
  | none => simp [mapGet] at h
  | num q => simp [mapGet] at h
  | bool b => simp [mapGet] at h

/-- A year resolved by the v2 Scanner lies in the configured range. -/
theorem resolveYearV2_bounds {c : Cell} {y : Int} (h : resolveYearV2 c = some y) :
    2014 ≤ y ∧ y ≤ 2050 := by
  unfold resolveYearV2 at h
  repeat' split at h
  all_goals try cases h
  all_goals omega

/-- A year resolved by the v1 Scanner lies in the configured range
(truncation of an in-range float stays in range). -/
theorem resolveYearV1_bounds {c : Cell} {y : Int} (h : resolveYearV1 c = some y) :
    2014 ≤ y ∧ y ≤ 2050 := by
  unfold resolveYearV1 at h
  repeat' split at h
  all_goals try cases h
  rename_i q hq
  refine ⟨Int.le_floor.2 (by exact_mod_cast hq.1), ?_⟩
  have h2 : ⌊q⌋ ≤ ⌊(2050 : ℚ)⌋ := Int.floor_le_floor hq.2
  simpa using h2

/-- Membership characterization of the v2 Scanner's ColumnMap: exactly the
columns `9 .. max_column` whose header cell resolves, each paired with the
resolved year. -/
theorem mem_yearColumnsV2 {header : List Cell} {maxCol i : Nat} {y : Int} :
    (i, y) ∈ yearColumnsV2 header maxCol ↔
      9 ≤ i ∧ i ≤ maxCol ∧ resolveYearV2 (cellAt header i) = some y := by
  unfold yearColumnsV2
  rw [List.mem_filterMap]
  constructor
  · rintro ⟨a, ha, hf⟩
    rw [Option.map_eq_some'] at hf
    obtain ⟨y', hy', heq⟩ := hf
    obtain ⟨rfl, rfl⟩ : a = i ∧ y' = y := by
      simpa [Prod.ext_iff] using heq
    rw [List.mem_range'_1] at ha
    exact ⟨ha.1, by omega, hy'⟩
  · rintro ⟨h9, hle, hres⟩
    refine ⟨i, ?_, ?_⟩
    · rw [List.mem_range'_1]
      omega
    · rw [hres]
      rfl

/-- The v2 ColumnMap is listed in strictly increasing column order. -/
theorem yearColumnsV2_pairwise (header : List Cell) (maxCol : Nat) :
    (yearColumnsV2 header maxCol).Pairwise fun p q => p.1 < q.1 := by
  unfold yearColumnsV2
  rw [List.pairwise_filterMap]
  refine (List.pairwise_lt_range' 9 (maxCol + 1 - 9)).imp_of_mem ?_
  intro a b ha hb hab
  intro x hx y hy
  rw [Option.mem_def, Option.map_eq_some'] at hx hy
  obtain ⟨_, _, rfl⟩ := hx
  obtain ⟨_, _, rfl⟩ := hy
  exact hab

/-- Membership characterization of the v1 Scanner's ColumnMap: exactly the
0-based header positions whose cell resolves numerically. -/
theorem mem_yearColumnsV1 {header : List Cell} {i : Nat} {y : Int} :
    (i, y) ∈ yearColumnsV1 header ↔
      i < header.length ∧ resolveYearV1 (cellAt0 header i) = some y := by
  unfold yearColumnsV1
  rw [List.mem_filterMap]
  constructor
  · rintro ⟨⟨a, c⟩, ha, hf⟩
    rw [Option.map_eq_some'] at hf
    obtain ⟨y', hy', heq⟩ := hf
    rw [List.mk_mem_enum_iff_getElem?] at ha
    have hlen : a < header.length := by
      by_contra hcon
      rw [List.getElem?_eq_none (by omega)] at ha
      cases ha
    have hc : c = header[a] := by
      rw [List.getElem?_eq_getElem hlen] at ha
      injection ha with h1
      exact h1.symm
    have hres : resolveYearV1 (cellAt0 header a) = some y' := by
      rw [cellAt0, List.getD_eq_getElem?_getD, List.getElem?_eq_getElem hlen]
      simpa [hc] using hy'
    have h1 : a = i := congrArg Prod.fst heq
    have h2 : y' = y := congrArg Prod.snd heq
    rw [h1] at hlen hres
    rw [h2] at hres
    exact ⟨hlen, hres⟩
  · rintro ⟨hlen, hres⟩
    refine ⟨(i, cellAt0 header i), ?_, ?_⟩
    · rw [List.mk_mem_enum_iff_getElem?]
      rw [cellAt0, List.getD_eq_getElem?_getD, List.getElem?_eq_getElem hlen]
      simp
    · show (resolveYearV1 (cellAt0 header i)).map (fun z => (i, z)) = some (i, y)
      rw [hres]
      rfl

/-- Elements of `enumFrom` have strictly increasing first components. -/
theorem enumFrom_pairwise_fst_lt {α : Type} (n : Nat) (l : List α) :
    (l.enumFrom n).Pairwise fun p q => p.1 < q.1 := by
  induction l generalizing n with
  | nil => simp
  | cons x xs ih =>
    rw [List.enumFrom_cons]
    refine List.Pairwise.cons ?_ (ih (n + 1))
    intro p hp
    have := (List.mk_mem_enumFrom_iff_le_and_getElem?_sub.1 (by simpa using hp)).1
    simpa using this

/-- The v1 ColumnMap is listed in strictly increasing column order. -/
theorem yearColumnsV1_pairwise (header : List Cell) :
    (yearColumnsV1 header).Pairwise fun p q => p.1 < q.1 := by
  unfold yearColumnsV1
  rw [List.pairwise_filterMap]
  refine (enumFrom_pairwise_fst_lt 0 header).imp_of_mem ?_
  intro a b ha hb hab
  intro x hx y hy
  rw [Option.mem_def, Option.map_eq_some'] at hx hy
  obtain ⟨_, _, rfl⟩ := hx
  obtain ⟨_, _, rfl⟩ := hy
  exact hab

/-- Inversion of the v2 row loop: a row reaches the emission branch exactly
with both category lookups hitting nonempty values and the classified
metric type equal to "Emissions", and the emitted records are the walk of
the year columns keeping nonzero numeric cells. -/
theorem processRowV2_emitted_eq {smap secmap : List (String × String)}
    {yc : List (Nat × Int)} {row : List Cell} {rs : List NormalizedRecord}
    (h : processRowV2 smap secmap yc row = RowResultV2.emitted rs) :
    ∃ scenario sector, mapGet smap (cellAt row 2) = some scenario ∧
      mapGet secmap (cellAt row 8) = some sector ∧
      scenario ≠ "" ∧ sector ≠ "" ∧
      metricTypeV2 (cellAt row 5) = Cell.str "Emissions" ∧
      rs = yc.filterMap fun p =>
        if pyNumericNonzero (cellAt row p.1) then
          some ⟨scenario, sector, regionV2 (cellAt row 4), metricTypeV2 (cellAt row 5),
                cellAt row 6, p.2, cellAt row p.1, "IEA SBTi Tool v2.4"⟩
        else Option.none := by
  simp only [processRowV2] at h
  split at h
  · rename_i scenario sector hsc hse
    split at h
    · cases h
    · split at h
      · cases h
      · rename_i hne hmetric
        push_neg at hne hmetric
        injection h with hrs
        exact ⟨scenario, sector, hsc, hse, hne.1, hne.2,
          hmetric, hrs.symm⟩
  · cases h

/-- Inversion of the v2 row loop: the unrecognized branch is taken exactly
when a category lookup misses or returns an empty string. -/
theorem processRowV2_unmapped_iff {smap secmap : List (String × String)}
    {yc : List (Nat × Int)} {row : List Cell} :
    processRowV2 smap secmap yc row = RowResultV2.unmapped ↔
      mapGet smap (cellAt row 2) = Option.none ∨
      mapGet secmap (cellAt row 8) = Option.none ∨
      mapGet smap (cellAt row 2) = some "" ∨
      mapGet secmap (cellAt row 8) = some "" := by
  simp only [processRowV2]
  split
  · rename_i scenario sector hsc hse
    constructor
    · intro h
      split at h
      · rename_i hemp
        rcases hemp with hs | hs
        · exact Or.inr (Or.inr (Or.inl (hs ▸ hsc)))
        · exact Or.inr (Or.inr (Or.inr (hs ▸ hse)))
      · split at h
        · cases h
        · cases h
    · intro h
      rcases h with hc | hc | hc | hc
      · rw [hsc] at hc; cases hc
      · rw [hse] at hc; cases hc
      · rw [hsc] at hc
        injection hc with he
        rw [if_pos (Or.inl he)]
      · rw [hse] at hc
        injection hc with he
        rw [if_pos (Or.inr he)]
  · rename_i hmatch
    constructor
    · intro _
      rcases hs : mapGet smap (cellAt row 2) with _ | scenario
      · exact Or.inl rfl
      · rcases ht : mapGet secmap (cellAt row 8) with _ | sector
        · exact Or.inr (Or.inl rfl)
        · exact (hmatch scenario sector hs ht).elim
    · intro _
      rfl

/-- Shape of every record emitted for one v2 row: its categorical fields
come from the row's metadata cells through the lookups and classification,
its value is a nonzero numeric cell sitting in one of the year columns. -/
theorem rowRecordsV2_shape {smap secmap : List (String × String)} {yc : List (Nat × Int)}
    {row : List Cell} {r : NormalizedRecord} (h : r ∈ rowRecordsV2 smap secmap yc row) :
    mapGet smap (cellAt row 2) = some r.scenario ∧
    mapGet secmap (cellAt row 8) = some r.sector ∧
    r.region = regionV2 (cellAt row 4) ∧
    r.metricType = Cell.str "Emissions" ∧
    r.unit = cellAt row 6 ∧
    (∃ i, (i, r.year) ∈ yc ∧ r.value = cellAt row i) ∧
    pyNumericNonzero r.value = true ∧
    r.dataSource = "IEA SBTi Tool v2.4" := by
  unfold rowRecordsV2 at h
  cases hp : processRowV2 smap secmap yc row with
  | unmapped => rw [hp] at h; cases h
  | metricFiltered => rw [hp] at h; cases h
  | emitted rs =>
    rw [hp] at h
    obtain ⟨scenario, sector, hsc, hse, _, _, hmetric, hrs⟩ := processRowV2_emitted_eq hp
    subst hrs
    simp only [recordsOfV2] at h
    rw [List.mem_filterMap] at h
    obtain ⟨p, hpmem, hf⟩ := h
    split at hf
    · rename_i hcond
      injection hf with hr
      subst hr
      exact ⟨hsc, hse, rfl, hmetric, rfl, ⟨p.1, hpmem, rfl⟩, hcond, rfl⟩
    · cases hf

/-- Inversion of the v1 row loop: a row reaches emission exactly with a
sector-mapping hit and a scenario value that is a nonempty string listed
among the scenario mapping's values. -/
theorem processRowV1_emitted_eq {smap secmap : List (String × String)}
    {yc : List (Nat × Int)} {row : List Cell} {rs : List NormalizedRecord}
    (h : processRowV1 smap secmap yc row = RowResultV1.emitted rs) :
    ∃ sector scenario, mapGet secmap (cellAt0 row 7) = some sector ∧
      scenarioGetV1 smap (cellAt0 row 1) = Cell.str scenario ∧
      sector ≠ "" ∧ scenario ≠ "" ∧ (mapValues smap).contains scenario = true ∧
      rs = yc.filterMap fun p =>
        if p.1 < row.length then
          if pyNumericNonzero (cellAt0 row p.1) then
            some ⟨scenario, sector,
              (if 3 < row.length then cellAt0 row 3 else Cell.str "World"),
              Cell.str (metricTypeV1 (cellAt0 row 4)), cellAt0 row 5, p.2,
              cellAt0 row p.1, "IEA Database Sheet"⟩
          else Option.none
        else Option.none := by
  simp only [processRowV1] at h
  split at h
  · rename_i sector scenario hse hsc
    split at h
    · cases h
    · rename_i hcond
      push_neg at hcond
      injection h with hrs
      exact ⟨sector, scenario, hse, hsc, hcond.1, hcond.2.1, hcond.2.2, hrs.symm⟩
  · cases h

/-- Shape of every record emitted for one v1 row. -/
theorem rowRecordsV1_shape {smap secmap : List (String × String)} {yc : List (Nat × Int)}
    {row : List Cell} {r : NormalizedRecord} (h : r ∈ rowRecordsV1 smap secmap yc row) :
    r.scenario ∈ mapValues smap ∧
    mapGet secmap (cellAt0 row 7) = some r.sector ∧
    (∃ i, (i, r.year) ∈ yc ∧ i < row.length ∧ r.value = cellAt0 row i) ∧
    pyNumericNonzero r.value = true ∧
    r.dataSource = "IEA Database Sheet" := by
  unfold rowRecordsV1 at h
  cases hp : processRowV1 smap secmap yc row with
  | skipped => rw [hp] at h; cases h
  | emitted rs =>
    rw [hp] at h
    obtain ⟨sector, scenario, hse, hsc, _, _, hcontains, hrs⟩ := processRowV1_emitted_eq hp
    subst hrs
    simp only [recordsOfV1] at h
    rw [List.mem_filterMap] at h
    obtain ⟨p, hpmem, hf⟩ := h
    split at hf
    · rename_i hlt
      split at hf
      · rename_i hcond
        injection hf with hr
        subst hr
        refine ⟨?_, hse, ⟨p.1, hpmem, hlt, rfl⟩, hcond, rfl⟩
        obtain ⟨v, hv, hbeq⟩ := (List.contains_iff_exists_mem_beq).1 hcontains
        exact (eq_of_beq hbeq).symm ▸ hv
      · cases hf
    · cases hf

/-- Stored conflict keys survive any statement application. -/
theorem applyStmt_key_mono {store : List NormalizedRecord} {s : Stmt}
    {k : String × String × Cell × Cell × Cell × Int}
    (h : k ∈ store.map conflictKey) : k ∈ (applyStmt store s).map conflictKey := by
  cases s with
  | insertDoNothing r =>
    simp only [applyStmt]
    split
    · exact h
    · rw [List.map_append]
      exact List.mem_append_left _ h
  | insertPlain r =>
    simp only [applyStmt]
    rw [List.map_append]
    exact List.mem_append_left _ h

/-- After a conflict-keyed do-nothing insert, the record's key is stored. -/
theorem applyStmt_doNothing_key (store : List NormalizedRecord) (r : NormalizedRecord) :
    conflictKey r ∈ (applyStmt store (Stmt.insertDoNothing r)).map conflictKey := by
  simp only [applyStmt]
  split
  · rename_i hany
    rw [List.any_eq_true] at hany
    obtain ⟨x, hx, hk⟩ := hany
    rw [decide_eq_true_eq] at hk
    exact hk ▸ List.mem_map_of_mem conflictKey hx
  · rw [List.map_append]
    exact List.mem_append_right _ (by simp)

/-- Stored conflict keys survive a whole statement sequence. -/
theorem applyStmts_key_mono {stmts : List Stmt} {store : List NormalizedRecord}
    {k : String × String × Cell × Cell × Cell × Int}
    (h : k ∈ store.map conflictKey) : k ∈ (applyStmts stmts store).map conflictKey := by
  induction stmts generalizing store with
  | nil => exact h
  | cons s rest ih => exact ih (applyStmt_key_mono h)

/-- After applying a sequence containing a do-nothing insert of `r`, the
key of `r` is stored. -/
theorem applyStmts_doNothing_key {stmts : List Stmt} {store : List NormalizedRecord}
    {r : NormalizedRecord} (h : Stmt.insertDoNothing r ∈ stmts) :
    conflictKey r ∈ (applyStmts stmts store).map conflictKey := by
  induction stmts generalizing store with
  | nil => cases h
  | cons s rest ih =>
    rcases List.mem_cons.1 h with heq | hmem
    · show conflictKey r ∈ (applyStmts rest (applyStmt store s)).map conflictKey
      exact applyStmts_key_mono (heq ▸ applyStmt_doNothing_key store r)
    · exact ih hmem

/-- A do-nothing insert whose key is already stored leaves the store as is. -/
theorem applyStmt_doNothing_noop {store : List NormalizedRecord} {r : NormalizedRecord}
    (h : conflictKey r ∈ store.map conflictKey) :
    applyStmt store (Stmt.insertDoNothing r) = store := by
  simp only [applyStmt]
  rw [if_pos]
  rw [List.any_eq_true]
  obtain ⟨x, hx, hk⟩ := List.mem_map.1 h
  exact ⟨x, hx, decide_eq_true hk⟩

/-- A sequence of do-nothing inserts whose keys are all already stored is a
no-op on the store: nothing is overwritten, deleted, or duplicated. -/
theorem applyStmts_noop {stmts : List Stmt} :
    ∀ store : List NormalizedRecord,
    (∀ s ∈ stmts, ∃ r, s = Stmt.insertDoNothing r) →
    (∀ r, Stmt.insertDoNothing r ∈ stmts → conflictKey r ∈ store.map conflictKey) →
    applyStmts stmts store = store := by
  induction stmts with
  | nil =>
    intro store _ _
    rfl
  | cons s rest ih =>
    intro store hall hkeys
    obtain ⟨r, rfl⟩ := hall s (List.mem_cons_self s rest)
    have hstep := applyStmt_doNothing_noop (hkeys r (List.mem_cons_self _ _))
    show applyStmts rest (applyStmt store (Stmt.insertDoNothing r)) = store
    rw [hstep]
    exact ih store (fun t ht => hall t (List.mem_cons_of_mem _ ht))
      (fun r' hr' => hkeys r' (List.mem_cons_of_mem _ hr'))

/-- Applying a sequence of conflict-keyed do-nothing inserts twice yields
the same store as applying it once. -/
theorem applyStmts_idem {stmts : List Stmt}
    (hall : ∀ s ∈ stmts, ∃ r, s = Stmt.insertDoNothing r)
    (store : List NormalizedRecord) :
    applyStmts stmts (applyStmts stmts store) = applyStmts stmts store :=
  applyStmts_noop _ hall (fun _ hr => applyStmts_doNothing_key hr)

/-- A sheet for the v1 script: one numeric year header (0-based index 8,
the year 2020) and one fully mapped data row. -/
def c1Header : List Cell := List.replicate 8 Cell.none ++ [Cell.num 2020]

/-- The data row paired with `c1Header`: canonical keys "ETP B2DS" and
"Cement", metric "Emissions", value 5 in the 2020 column. -/
def c1Row : List Cell :=
  [Cell.none, Cell.str "ETP B2DS", Cell.none, Cell.str "World", Cell.str "Emissions",
   Cell.str "MtCO2", Cell.none, Cell.str "Cement", Cell.num 5]

/-- The single record the v1 script emits for `c1Header`/`c1Row`. -/
def c1Record : NormalizedRecord :=
  ⟨"ETP_B2DS", "cement", Cell.str "World", Cell.str "Emissions", Cell.str "MtCO2",
   2020, Cell.num 5, "IEA Database Sheet"⟩

/-- C1 counterexample: the v1 script (extract-sbti-pathways.py line 92)
serializes a bare INSERT with no conflict clause, so applying its statement
sequence twice to an empty store duplicates the record instead of leaving
the single-application result unchanged. -/
theorem C1_counterexample :
    extractStmtsV1 scenario_map_v1 sector_map_v1 c1Header [c1Row]
      = [Stmt.insertPlain c1Record] ∧
    applyStmts (extractStmtsV1 scenario_map_v1 sector_map_v1 c1Header [c1Row]) []
      = [c1Record] ∧
    applyStmts (extractStmtsV1 scenario_map_v1 sector_map_v1 c1Header [c1Row])
        (applyStmts (extractStmtsV1 scenario_map_v1 sector_map_v1 c1Header [c1Row]) [])
      = [c1Record, c1Record] := by
  refine ⟨by decide, by decide, by decide⟩

/-- C1 (amended): every statement the v2 script serializes is a
conflict-keyed do-nothing insert, and applying the v2 statement sequence
twice to an empty target store yields exactly the record set of applying it
once — existing records are never overwritten, deleted, or duplicated on
re-application.  The v1 script's plain INSERTs do not have this property. -/
theorem C1_v2_statements_idempotent (smap secmap : List (String × String))
    (header : List Cell) (rows : List (List Cell)) :
    (∀ s ∈ extractStmtsV2 smap secmap header rows, ∃ r, s = Stmt.insertDoNothing r) ∧
    applyStmts (extractStmtsV2 smap secmap header rows)
        (applyStmts (extractStmtsV2 smap secmap header rows) [])
      = applyStmts (extractStmtsV2 smap secmap header rows) [] := by
  have hall : ∀ s ∈ extractStmtsV2 smap secmap header rows,
      ∃ r, s = Stmt.insertDoNothing r := by
    intro s hs
    rw [extractStmtsV2, List.mem_map] at hs
    obtain ⟨r, _, rfl⟩ := hs
    exact ⟨r, rfl⟩
  exact ⟨hall, applyStmts_idem hall []⟩

/-- A sheet for the v2 script: one string year header at 1-based column 9
and one fully mapped data row. -/
def c1bHeader : List Cell := List.replicate 8 Cell.none ++ [Cell.str "2020"]

/-- The data row paired with `c1bHeader`. -/
def c1bRow : List Cell :=
  [Cell.none, Cell.str "ETP B2DS", Cell.none, Cell.str "World", Cell.str "Emissions",
   Cell.str "MtCO2", Cell.none, Cell.str "Cement", Cell.num 5]

/-- Witness for C1: the idempotence theorem instantiated on a concrete v2
sheet that emits one statement. -/
theorem C1_witness :
    applyStmts (extractStmtsV2 scenario_map_v2 sector_map_v2 c1bHeader [c1bRow])
        (applyStmts (extractStmtsV2 scenario_map_v2 sector_map_v2 c1bHeader [c1bRow]) [])
      = applyStmts (extractStmtsV2 scenario_map_v2 sector_map_v2 c1bHeader [c1bRow]) [] :=
  (C1_v2_statements_idempotent scenario_map_v2 sector_map_v2 c1bHeader [c1bRow]).2

/-- A header whose 1-based column 9 holds the number 2020. -/
def c2NumHeader : List Cell := List.replicate 8 Cell.none ++ [Cell.num 2020]

/-- A header whose 0-based index 8 holds the string "2020". -/
def c2StrHeader : List Cell := List.replicate 8 Cell.none ++ [Cell.str "2020"]

/-- A header carrying the string "2020" in both column 9 and column 10. -/
def c2DupHeader : List Cell :=
  List.replicate 8 Cell.none ++ [Cell.str "2020", Cell.str "2020"]

/-- C2 counterexample: no Scanner in the source resolves both kinds of
year cell — the v2 Scanner ignores a numeric 2020 header cell, and the v1
Scanner ignores a string "2020" header cell, each returning an empty
ColumnMap where the claim requires the year to be resolved; moreover the
Scanner does not deduplicate, so a header repeating "2020" yields the same
year twice, against the claim's "no duplicate years". -/
theorem C2_counterexample :
    cellAt c2NumHeader 9 = Cell.num 2020 ∧ yearColumnsV2 c2NumHeader 9 = [] ∧
    cellAt0 c2StrHeader 8 = Cell.str "2020" ∧ yearColumnsV1 c2StrHeader = [] ∧
    yearColumnsV2 c2DupHeader 10 = [(9, 2020), (10, 2020)] := by
  refine ⟨by decide, by decide, by decide, by decide, by decide⟩

/-- C2 (amended): each Scanner returns exactly the `(columnIndex, year)`
pairs whose header cell resolves under its own rule — v2 resolves only
nonempty string cells parsing to an integer in `[2014, 2050]` over columns
`9 .. max_column`, and never a numeric cell; v1 resolves only numeric cells
in range over all 0-based positions, and never a string cell — in strictly
increasing (original left-to-right) column order, never raising on an
unresolvable cell, with every resolved year in `[2014, 2050]`. -/
theorem C2_scanner_characterization :
    (∀ (header : List Cell) (maxCol i : Nat) (y : Int),
      (i, y) ∈ yearColumnsV2 header maxCol ↔
        9 ≤ i ∧ i ≤ maxCol ∧ resolveYearV2 (cellAt header i) = some y) ∧
    (∀ (header : List Cell) (maxCol : Nat),
      (yearColumnsV2 header maxCol).Pairwise fun p q => p.1 < q.1) ∧
    (∀ q : ℚ, resolveYearV2 (Cell.num q) = Option.none) ∧
    (∀ (header : List Cell) (i : Nat) (y : Int),
      (i, y) ∈ yearColumnsV1 header ↔
        i < header.length ∧ resolveYearV1 (cellAt0 header i) = some y) ∧
    (∀ header : List Cell, (yearColumnsV1 header).Pairwise fun p q => p.1 < q.1) ∧
    (∀ s : String, resolveYearV1 (Cell.str s) = Option.none) ∧
    (∀ (c : Cell) (y : Int), resolveYearV2 c = some y → 2014 ≤ y ∧ y ≤ 2050) ∧
    (∀ (c : Cell) (y : Int), resolveYearV1 c = some y → 2014 ≤ y ∧ y ≤ 2050) := by
  refine ⟨fun _ _ _ _ => mem_yearColumnsV2, yearColumnsV2_pairwise, fun _ => rfl,
    fun _ _ _ => mem_yearColumnsV1, yearColumnsV1_pairwise, fun _ => rfl,
    fun _ _ => resolveYearV2_bounds, fun _ _ => resolveYearV1_bounds⟩

/-- Witness for C2: the characterizations instantiated on concrete headers,
resolving the string "2020" in v2 and the numeric 2020 in v1. -/
theorem C2_witness :
    (9, 2020) ∈ yearColumnsV2 c2StrHeader 9 ∧ (8, 2020) ∈ yearColumnsV1 c2NumHeader :=
  ⟨(C2_scanner_characterization.1 c2StrHeader 9 9 2020).mpr (by decide),
   (C2_scanner_characterization.2.2.2.1 c2NumHeader 8 2020).mpr (by decide)⟩

/-- C3 counterexample: the v1 script's classification coerces every raw
label other than "Emissions" — here the unknown label "Oil" and the empty
cell — to "Activity" instead of passing it through unchanged. -/
theorem C3_counterexample :
    metricTypeV1 (Cell.str "Oil") = "Activity" ∧ metricTypeV1 Cell.none = "Activity" := by
  refine ⟨by decide, by decide⟩

/-- C3 (amended): the v2 script classifies exactly as the claim states —
"Emissions" maps to Emissions, the synonym set to Activity, everything else
(unknown strings, None, numbers) passes through unchanged — while the v1
script coerces every raw label other than the exact string "Emissions"
to "Activity". -/
theorem C3_metric_classification :
    metricTypeV2 (Cell.str "Emissions") = Cell.str "Emissions" ∧
    metricTypeV2 (Cell.str "Electricity") = Cell.str "Activity" ∧
    metricTypeV2 (Cell.str "Activity") = Cell.str "Activity" ∧
    (∀ c : Cell, c ≠ Cell.str "Emissions" → c ≠ Cell.str "Electricity" →
      c ≠ Cell.str "Activity" → metricTypeV2 c = c) ∧
    metricTypeV1 (Cell.str "Emissions") = "Emissions" ∧
    (∀ c : Cell, c ≠ Cell.str "Emissions" → metricTypeV1 c = "Activity") := by
  refine ⟨by decide, by decide, by decide, ?_, by decide, ?_⟩
  · intro c h1 h2 h3
    rw [metricTypeV2, if_neg h1, if_neg (not_or.mpr ⟨h2, h3⟩)]
  · intro c h1
    rw [metricTypeV1, if_neg h1]

/-- Witness for C3: the classification applied to the unknown label "Heat",
passed through by v2 and coerced by v1. -/
theorem C3_witness :
    metricTypeV2 (Cell.str "Heat") = Cell.str "Heat" ∧
    metricTypeV1 (Cell.str "Heat") = "Activity" :=
  ⟨C3_metric_classification.2.2.2.1 (Cell.str "Heat") (by decide) (by decide) (by decide),
   C3_metric_classification.2.2.2.2.2 (Cell.str "Heat") (by decide)⟩

/-- A data row whose raw scenario label "SBTi_1.5C" is a canonical value of
the scenario mapping but not one of its keys. -/
def c4Row : List Cell :=
  [Cell.none, Cell.str "SBTi_1.5C", Cell.none, Cell.str "World", Cell.str "Emissions",
   Cell.str "MtCO2", Cell.none, Cell.str "Cement", Cell.num 5]

/-- The record the v1 script emits for `c4Row`. -/
def c4Record : NormalizedRecord :=
  ⟨"SBTi_1.5C", "cement", Cell.str "World", Cell.str "Emissions", Cell.str "MtCO2",
   2020, Cell.num 5, "IEA Database Sheet"⟩

/-- C4 counterexample: in the v1 script the scenario lookup defaults to the
raw label (`scenario_map.get(scenario_raw, scenario_raw)`), so the raw
label "SBTi_1.5C" — which is not a key of the scenario mapping — passes
the membership check against the mapping's values and the row is accepted
and emits a record, where the claim requires rejection. -/
theorem C4_counterexample :
    List.lookup "SBTi_1.5C" scenario_map_v1 = Option.none ∧
    processRowV1 scenario_map_v1 sector_map_v1 [(8, 2020)] c4Row
      = RowResultV1.emitted [c4Record] := by
  refine ⟨by decide, by decide⟩

/-- C4 (amended): the v2 script rejects a row as unrecognized exactly when
its raw scenario or sector cell is not a string matching a mapping key
character for character (no fuzzy matching, no case or whitespace
normalization), and such a rejected row contributes zero records. -/
theorem C4_v2_unmapped_rejection (yc : List (Nat × Int)) (row : List Cell) :
    (processRowV2 scenario_map_v2 sector_map_v2 yc row = RowResultV2.unmapped ↔
      ¬ ((∃ s, cellAt row 2 = Cell.str s ∧ s ∈ scenario_map_v2.map Prod.fst) ∧
         (∃ s, cellAt row 8 = Cell.str s ∧ s ∈ sector_map_v2.map Prod.fst))) ∧
    (processRowV2 scenario_map_v2 sector_map_v2 yc row = RowResultV2.unmapped →
      rowRecordsV2 scenario_map_v2 sector_map_v2 yc row = []) := by
  constructor
  · constructor
    · intro h
      rcases processRowV2_unmapped_iff.1 h with hc | hc | hc | hc
      · exact fun hk => (mapGet_eq_none_iff.1 hc) hk.1
      · exact fun hk => (mapGet_eq_none_iff.1 hc) hk.2
      · exact absurd (mapGet_some_mem_values hc) (by decide)
      · exact absurd (mapGet_some_mem_values hc) (by decide)
    · intro h
      apply processRowV2_unmapped_iff.2
      by_cases hA : ∃ s, cellAt row 2 = Cell.str s ∧ s ∈ scenario_map_v2.map Prod.fst
      · have hB : ¬ ∃ s, cellAt row 8 = Cell.str s ∧ s ∈ sector_map_v2.map Prod.fst :=
          fun hb => h ⟨hA, hb⟩
        exact Or.inr (Or.inl (mapGet_eq_none_iff.2 hB))
      · exact Or.inl (mapGet_eq_none_iff.2 hA)
  · intro h
    unfold rowRecordsV2
    rw [h]
    rfl

/-- A data row whose raw scenario label differs from the mapping key
"SBTi 1.5C" only in letter case. -/
def c4wRow : List Cell :=
  [Cell.none, Cell.str "sbti 1.5c", Cell.none, Cell.str "World", Cell.str "Emissions",
   Cell.str "MtCO2", Cell.none, Cell.str "Cement", Cell.num 5]

/-- Witness for C4: a case-variant scenario label is an exact-match miss,
so the v2 row is rejected and contributes zero records. -/
theorem C4_witness :
    processRowV2 scenario_map_v2 sector_map_v2 [(9, 2020)] c4wRow = RowResultV2.unmapped ∧
    rowRecordsV2 scenario_map_v2 sector_map_v2 [(9, 2020)] c4wRow = [] := by
  have hmiss : ¬ ((∃ s, cellAt c4wRow 2 = Cell.str s ∧ s ∈ scenario_map_v2.map Prod.fst) ∧
      (∃ s, cellAt c4wRow 8 = Cell.str s ∧ s ∈ sector_map_v2.map Prod.fst)) := by
    rintro ⟨⟨s, hs, hmem⟩, -⟩
    have hcell : cellAt c4wRow 2 = Cell.str "sbti 1.5c" := by decide
    rw [hcell] at hs
    injection hs with hse
    subst hse
    exact absurd hmem (by decide)
  have h := (C4_v2_unmapped_rejection [(9, 2020)] c4wRow).1.mpr hmiss
  exact ⟨h, (C4_v2_unmapped_rejection [(9, 2020)] c4wRow).2 h⟩

/-- A header with no cell resolving to a year in `[2014, 2050]` (its column
9 holds a non-year string). -/
def c5Header : List Cell :=
  [Cell.none, Cell.str "Scenario", Cell.none, Cell.str "Region", Cell.str "Flow",
   Cell.str "Unit", Cell.none, Cell.str "Sector", Cell.str "Total"]

/-- An otherwise-valid data row under `c5Header`: mapped scenario and
sector, metric "Emissions", and a nonzero numeric cell in column 9. -/
def c5Row : List Cell :=
  [Cell.none, Cell.str "ETP B2DS", Cell.none, Cell.str "World", Cell.str "Emissions",
   Cell.str "MtCO2", Cell.none, Cell.str "Cement", Cell.num 7]

/-- C5: with no year columns the v2 pipeline produces an empty ColumnMap
and zero records even though the data row is otherwise valid — but the run
does not complete normally: the final summary (script line 156) subscripts
the empty `year_columns` list and raises IndexError, contradicting the
claim's "non-fatal, no exception raised". -/
theorem C5_no_year_columns_raises :
    yearColumnsV2 c5Header (maxColumn c5Header [c5Row]) = [] ∧
    extractRecordsV2 scenario_map_v2 sector_map_v2 c5Header [c5Row] = [] ∧
    extractRunV2 scenario_map_v2 sector_map_v2 c5Header [c5Row]
      = Except.error "IndexError: list index out of range" := by
  refine ⟨by decide, by decide, by rfl⟩

/-- The round-trip header of the spec: year columns "2020" and "2021" at
1-based columns 9 and 10. -/
def c6Header : List Cell :=
  [Cell.none, Cell.str "Scenario", Cell.none, Cell.str "Region", Cell.str "Flow",
   Cell.str "Unit", Cell.none, Cell.str "Sector", Cell.str "2020", Cell.str "2021"]

/-- The round-trip data row of the spec: value 12.5 under 2020 and 0 under
2021. -/
def c6Row : List Cell :=
  [Cell.none, Cell.str "SBTi 1.5C", Cell.none, Cell.str "World", Cell.str "Emissions",
   Cell.str "MtCO2", Cell.none, Cell.str "Cement", Cell.num (mkRat 25 2), Cell.num 0]

/-- The round-trip scenario mapping given by the claim. -/
def c6ScenarioMap : List (String × String) := [("SBTi 1.5C", "SBTi_1.5C")]

/-- The round-trip sector mapping given by the claim. -/
def c6SectorMap : List (String × String) := [("Cement", "cement")]

/-- The single record the claim expects. -/
def c6Record : NormalizedRecord :=
  ⟨"SBTi_1.5C", "cement", Cell.str "World", Cell.str "Emissions", Cell.str "MtCO2",
   2020, Cell.num (mkRat 25 2), "IEA SBTi Tool v2.4"⟩

/-- C6 counterexample: on the claim's input the v1 pipeline emits zero
records, not one — its Scanner resolves only numeric header cells, and the
header years here are the strings "2020"/"2021". -/
theorem C6_counterexample :
    yearColumnsV1 (padRow c6Header (maxColumn c6Header [c6Row])) = [] ∧
    extractRecordsV1 c6ScenarioMap c6SectorMap c6Header [c6Row] = [] := by
  refine ⟨by decide, by decide⟩

/-- C6 (amended): on the claim's input the v2 pipeline emits exactly the
expected record — scenario SBTi_1.5C, sector cement, region World, metric
Emissions, unit MtCO2, year 2020, value 12.5 — and the 2021 zero cell
produces no record. -/
theorem C6_v2_round_trip :
    extractRecordsV2 c6ScenarioMap c6SectorMap c6Header [c6Row] = [c6Record] ∧
    (mkRat 25 2 : ℚ) = 12.5 ∧
    extractStmtsV2 c6ScenarioMap c6SectorMap c6Header [c6Row]
      = [Stmt.insertDoNothing c6Record] := by
  refine ⟨by decide, by norm_num [Rat.mkRat_eq_div], by decide⟩

/-- A v1 data row long enough to contain the region column, with an empty
region cell. -/
def c7Row : List Cell :=
  [Cell.none, Cell.str "ETP B2DS", Cell.none, Cell.none, Cell.str "Emissions",
   Cell.str "MtCO2", Cell.none, Cell.str "Cement", Cell.num 5]

/-- The record the v1 script emits for `c7Row`: its region is the empty
cell, not the "World" fallback. -/
def c7Record : NormalizedRecord :=
  ⟨"ETP_B2DS", "cement", Cell.none, Cell.str "Emissions", Cell.str "MtCO2",
   2020, Cell.num 5, "IEA Database Sheet"⟩

/-- C7 counterexample: in the v1 script the "World" fallback applies only
when the row is too short to contain the region column
(`row[3].value if len(row) > 3 else 'World'`); on a long-enough row with an
empty region cell the emitted region is the empty value, not "World". -/
theorem C7_counterexample :
    3 < c7Row.length ∧ cellAt0 c7Row 3 = Cell.none ∧
    processRowV1 scenario_map_v1 sector_map_v1 [(8, 2020)] c7Row
      = RowResultV1.emitted [c7Record] ∧
    c7Record.region ≠ Cell.str "World" := by
  refine ⟨by decide, by decide, by decide, by decide⟩

/-- C7 (amended): the v2 script assigns the fallback region "World"
whenever the region cell itself is falsy (empty), for every record the row
emits. -/
theorem C7_v2_region_default (smap secmap : List (String × String))
    (yc : List (Nat × Int)) (row : List Cell)
    (h : truthy (cellAt row 4) = false) :
    ∀ r ∈ rowRecordsV2 smap secmap yc row, r.region = Cell.str "World" := by
  intro r hr
  have hs := rowRecordsV2_shape hr
  rw [hs.2.2.1, regionV2, h]
  simp

/-- Witness for C7: a v2 row with an empty region cell emits a (nonempty)
record list whose records all carry region "World". -/
theorem C7_witness :
    truthy (cellAt c7Row 4) = false ∧
    (∀ r ∈ rowRecordsV2 scenario_map_v2 sector_map_v2 [(9, 2020)] c7Row,
      r.region = Cell.str "World") ∧
    rowRecordsV2 scenario_map_v2 sector_map_v2 [(9, 2020)] c7Row ≠ [] :=
  ⟨by decide, C7_v2_region_default scenario_map_v2 sector_map_v2 [(9, 2020)] c7Row (by decide),
   by decide⟩

/-- Row results of the v2 loop do not depend on the ColumnMap for the
unrecognized-category decision. -/
theorem processRowV2_unmapped_indep (smap secmap : List (String × String))
    (yc yc' : List (Nat × Int)) (row : List Cell) :
    processRowV2 smap secmap yc row = RowResultV2.unmapped ↔
      processRowV2 smap secmap yc' row = RowResultV2.unmapped :=
  processRowV2_unmapped_iff.trans processRowV2_unmapped_iff.symm

/-- The v2 skip counter counts the unrecognized rows, independently of the
sheet's discovered year columns. -/
theorem skippedRowsV2_eq (smap secmap : List (String × String)) (header : List Cell)
    (rows : List (List Cell)) :
    skippedRowsV2 smap secmap header rows
      = rows.countP fun row =>
          decide (processRowV2 smap secmap [] row = RowResultV2.unmapped) := by
  unfold skippedRowsV2
  refine List.countP_congr ?_
  intro row _
  constructor
  · intro h
    rw [decide_eq_true_eq] at h
    exact decide_eq_true
      ((processRowV2_unmapped_indep smap secmap
        (yearColumnsV2 header (maxColumn header rows)) [] row).1 h)
  · intro h
    rw [decide_eq_true_eq] at h
    exact decide_eq_true
      ((processRowV2_unmapped_indep smap secmap
        (yearColumnsV2 header (maxColumn header rows)) [] row).2 h)

/-- A v1 row whose sector lookup misses is skipped. -/
theorem processRowV1_skipped_of_sector_none {smap secmap : List (String × String)}
    {yc : List (Nat × Int)} {row : List Cell}
    (h : mapGet secmap (cellAt0 row 7) = Option.none) :
    processRowV1 smap secmap yc row = RowResultV1.skipped := by
  simp only [processRowV1, h]

/-- C8: every record either Emitter emits has its scenario and sector drawn
from the closed canonical sets (the ranges of the two mappings), a value
that is non-null, numeric, and numerically non-zero under the scripts' own
cell test, and a year within the scanned range. -/
theorem C8_record_invariant (smap secmap : List (String × String)) (header : List Cell)
    (rows : List (List Cell)) (r : NormalizedRecord) :
    (r ∈ extractRecordsV2 smap secmap header rows →
      r.scenario ∈ mapValues smap ∧ r.sector ∈ mapValues secmap ∧
      r.value ≠ Cell.none ∧ pyNumericNonzero r.value = true ∧
      r.year ∈ (yearColumnsV2 header (maxColumn header rows)).map Prod.snd ∧
      2014 ≤ r.year ∧ r.year ≤ 2050) ∧
    (r ∈ extractRecordsV1 smap secmap header rows →
      r.scenario ∈ mapValues smap ∧ r.sector ∈ mapValues secmap ∧
      r.value ≠ Cell.none ∧ pyNumericNonzero r.value = true ∧
      2014 ≤ r.year ∧ r.year ≤ 2050) := by
  constructor
  · intro h
    rw [extractRecordsV2, List.mem_flatMap] at h
    obtain ⟨row, _, hr⟩ := h
    have hs := rowRecordsV2_shape hr
    obtain ⟨i, hiy, _⟩ := hs.2.2.2.2.2.1
    have hnum := hs.2.2.2.2.2.2.1
    have hbounds := resolveYearV2_bounds (mem_yearColumnsV2.1 hiy).2.2
    refine ⟨mapGet_some_mem_values hs.1, mapGet_some_mem_values hs.2.1, ?_, hnum,
      List.mem_map_of_mem Prod.snd hiy, hbounds.1, hbounds.2⟩
    intro hnone
    rw [hnone] at hnum
    cases hnum
  · intro h
    simp only [extractRecordsV1] at h
    rw [List.mem_flatMap] at h
    obtain ⟨row, _, hr⟩ := h
    have hs := rowRecordsV1_shape hr
    obtain ⟨i, hiy, _, _⟩ := hs.2.2.1
    have hnum := hs.2.2.2.1
    have hbounds := resolveYearV1_bounds (mem_yearColumnsV1.1 hiy).2
    refine ⟨hs.1, mapGet_some_mem_values hs.2.1, ?_, hnum, hbounds.1, hbounds.2⟩
    intro hnone
    rw [hnone] at hnum
    cases hnum

/-- Witness for C8: the invariant instantiated on concrete emitted records
of both pipelines. -/
theorem C8_witness :
    (c6Record.scenario ∈ mapValues c6ScenarioMap ∧
      c6Record.sector ∈ mapValues c6SectorMap ∧
      c6Record.value ≠ Cell.none ∧ pyNumericNonzero c6Record.value = true ∧
      c6Record.year ∈ (yearColumnsV2 c6Header (maxColumn c6Header [c6Row])).map Prod.snd ∧
      2014 ≤ c6Record.year ∧ c6Record.year ≤ 2050) ∧
    (c1Record.scenario ∈ mapValues scenario_map_v1 ∧
      c1Record.sector ∈ mapValues sector_map_v1 ∧
      c1Record.value ≠ Cell.none ∧ pyNumericNonzero c1Record.value = true ∧
      2014 ≤ c1Record.year ∧ c1Record.year ≤ 2050) :=
  ⟨(C8_record_invariant c6ScenarioMap c6SectorMap c6Header [c6Row] c6Record).1 (by decide),
   (C8_record_invariant scenario_map_v1 sector_map_v1 c1Header [c1Row] c1Record).2 (by decide)⟩

/-- C9: a data row whose raw sector label is absent from the sector mapping
contributes zero records, and inserting such a row into a v2 sheet
increments the `skipped_rows` counter by exactly one; in the v1 script such
a row likewise contributes zero records (v1 keeps no skip counter). -/
theorem C9_unmapped_sector_skip :
    (∀ (header : List Cell) (rows1 rows2 : List (List Cell)) (row : List Cell),
      mapGet sector_map_v2 (cellAt row 8) = Option.none →
      (∀ yc, rowRecordsV2 scenario_map_v2 sector_map_v2 yc row = []) ∧
      skippedRowsV2 scenario_map_v2 sector_map_v2 header (rows1 ++ row :: rows2)
        = skippedRowsV2 scenario_map_v2 sector_map_v2 header (rows1 ++ rows2) + 1) ∧
    (∀ (yc : List (Nat × Int)) (row : List Cell),
      mapGet sector_map_v1 (cellAt0 row 7) = Option.none →
      rowRecordsV1 scenario_map_v1 sector_map_v1 yc row = []) := by
  constructor
  · intro header rows1 rows2 row hsec
    have hunm : ∀ yc : List (Nat × Int),
        processRowV2 scenario_map_v2 sector_map_v2 yc row = RowResultV2.unmapped :=
      fun yc => processRowV2_unmapped_iff.2 (Or.inr (Or.inl hsec))
    constructor
    · intro yc
      unfold rowRecordsV2
      rw [hunm yc]
      rfl
    · rw [skippedRowsV2_eq, skippedRowsV2_eq, List.countP_append, List.countP_append,
        List.countP_cons]
      rw [decide_eq_true (hunm [])]
      simp [Nat.add_assoc]
  · intro yc row hsec
    unfold rowRecordsV1
    rw [processRowV1_skipped_of_sector_none hsec]
    rfl

/-- A data row whose raw sector label "Chemicals" is not a key of either
sector mapping. -/
def c9Row : List Cell :=
  [Cell.none, Cell.str "SBTi 1.5C", Cell.none, Cell.str "World", Cell.str "Emissions",
   Cell.str "MtCO2", Cell.none, Cell.str "Chemicals", Cell.num 3]

/-- Witness for C9: the "Chemicals" row of the spec contributes zero
records in both pipelines, and adding it to a one-row v2 sheet raises the
skip counter from 0 to 1. -/
theorem C9_witness :
    rowRecordsV2 scenario_map_v2 sector_map_v2 [(9, 2020)] c9Row = [] ∧
    skippedRowsV2 scenario_map_v2 sector_map_v2 c1bHeader ([c1bRow] ++ c9Row :: [])
      = skippedRowsV2 scenario_map_v2 sector_map_v2 c1bHeader ([c1bRow] ++ []) + 1 ∧
    rowRecordsV1 scenario_map_v1 sector_map_v1 [(8, 2020)] c9Row = [] :=
  ⟨((C9_unmapped_sector_skip.1 c1bHeader [c1bRow] [] c9Row (by decide)).1 [(9, 2020)]),
   (C9_unmapped_sector_skip.1 c1bHeader [c1bRow] [] c9Row (by decide)).2,
   C9_unmapped_sector_skip.2 [(8, 2020)] c9Row (by decide)⟩

/-- C10: the shared emitter cell test accepts the boolean True (a nonzero
instance of int in Python) and rejects False (equal to zero); consequently,
for an accepted v2 row, a True cell in a year column is emitted as a record
with value True, and no emitted record of either pipeline ever carries the
value False. -/
theorem C10_bool_cell_emission :
    pyNumericNonzero (Cell.bool true) = true ∧
    pyNumericNonzero (Cell.bool false) = false ∧
    (∀ (smap secmap : List (String × String)) (yc : List (Nat × Int)) (row : List Cell)
       (rs : List NormalizedRecord) (i : Nat) (y : Int),
      processRowV2 smap secmap yc row = RowResultV2.emitted rs →
      ((i, y) ∈ yc → cellAt row i = Cell.bool true →
        ∃ r ∈ rs, r.year = y ∧ r.value = Cell.bool true) ∧
      (∀ r ∈ rs, r.value ≠ Cell.bool false)) ∧
    (∀ (smap secmap : List (String × String)) (yc : List (Nat × Int)) (row : List Cell)
       (r : NormalizedRecord), r ∈ rowRecordsV1 smap secmap yc row →
      r.value ≠ Cell.bool false) := by
  refine ⟨rfl, rfl, ?_, ?_⟩
  · intro smap secmap yc row rs i y hp
    obtain ⟨scenario, sector, hsc, hse, _, _, hmetric, hrs⟩ := processRowV2_emitted_eq hp
    constructor
    · intro hiy hcell
      refine ⟨(⟨scenario, sector, regionV2 (cellAt row 4), metricTypeV2 (cellAt row 5),
        cellAt row 6, y, Cell.bool true, "IEA SBTi Tool v2.4"⟩ : NormalizedRecord),
        ?_, rfl, rfl⟩
      rw [hrs, List.mem_filterMap]
      refine ⟨(i, y), hiy, ?_⟩
      show (if pyNumericNonzero (cellAt row i) then
          some (⟨scenario, sector, regionV2 (cellAt row 4), metricTypeV2 (cellAt row 5),
            cellAt row 6, y, cellAt row i, "IEA SBTi Tool v2.4"⟩ : NormalizedRecord)
        else Option.none) = _
      rw [hcell]
      rfl
    · intro r hr
      have hr' : r ∈ rowRecordsV2 smap secmap yc row := by
        unfold rowRecordsV2
        rw [hp]
        exact hr
      have hnum := (rowRecordsV2_shape hr').2.2.2.2.2.2.1
      intro hveq
      rw [hveq] at hnum
      cases hnum
  · intro smap secmap yc row r hr
    have hnum := (rowRecordsV1_shape hr).2.2.2.1
    intro hveq
    rw [hveq] at hnum
    cases hnum

/-- A v2 data row carrying the boolean True under 2020 and False under
2021. -/
def c10Row : List Cell :=
  [Cell.none, Cell.str "ETP B2DS", Cell.none, Cell.str "World", Cell.str "Emissions",
   Cell.str "MtCO2", Cell.none, Cell.str "Cement", Cell.bool true, Cell.bool false]

/-- The record list the v2 loop emits for `c10Row`. -/
def c10Records : List NormalizedRecord :=
  [⟨"ETP_B2DS", "cement", Cell.str "World", Cell.str "Emissions", Cell.str "MtCO2",
    2020, Cell.bool true, "IEA SBTi Tool v2.4"⟩]

/-- Witness for C10: on the concrete row, the True cell at the 2020 column
is emitted with value True and no emitted record carries False. -/
theorem C10_witness :
    (∃ r ∈ c10Records, r.year = 2020 ∧ r.value = Cell.bool true) ∧
    (∀ r ∈ c10Records, r.value ≠ Cell.bool false) :=
  ⟨(C10_bool_cell_emission.2.2.1 scenario_map_v2 sector_map_v2 [(9, 2020), (10, 2021)]
      c10Row c10Records 9 2020 (by decide)).1 (by decide) (by decide),
   (C10_bool_cell_emission.2.2.1 scenario_map_v2 sector_map_v2 [(9, 2020), (10, 2021)]
      c10Row c10Records 9 2020 (by decide)).2⟩

end SBTi
